import Mathlib

/-!
Shallow embedding of the RKMPP hardware video encoder adapter
(`libavcodec/rkmppenc.c`) and proofs about its configuration,
frame-submission and packet-retrieval logic.

External MPP engine calls (`mpp_frame_init`, `mpp_buffer_import`,
`mpi->poll` / `dequeue` / `enqueue`, `mpp_task_meta_get_packet`,
`av_mallocz`, `av_buffer_create`) are modelled by an environment record
supplying the outcome of each call site; the adapter's own control flow,
field computations and resource-release ordering are translated
statement by statement from the C source.  Machine integers are `Int`;
C's truncating division on signed integers is `Int.tdiv`.
-/

namespace Rkmpp

/-! ## Constants (libavutil error codes, packet flags) -/

/-- AVERROR(EINVAL): negated POSIX EINVAL (22). -/
def AVERROR_EINVAL : Int := -22

/-- AVERROR(EAGAIN): negated POSIX EAGAIN (11). -/
def AVERROR_EAGAIN : Int := -11

/-- AVERROR(ENOMEM): negated POSIX ENOMEM (12). -/
def AVERROR_ENOMEM : Int := -12

/-- AVERROR_UNKNOWN = FFERRTAG of the four characters U N K N. -/
def AVERROR_UNKNOWN : Int := -1313558101

/-- AVERROR_EOF = FFERRTAG of the four characters E O F and space. -/
def AVERROR_EOF : Int := -541478725

/-- `MPP_PACKET_FLAG_INTRA` (0x00000008), rkmppenc.c line 40. -/
def MPP_PACKET_FLAG_INTRA : Nat := 8

/-- `AV_PKT_FLAG_KEY` (0x0001) from libavcodec/avcodec.h. -/
def AV_PKT_FLAG_KEY : Nat := 1

/-- `FF_PROFILE_H264_BASELINE` from libavcodec/avcodec.h. -/
def FF_PROFILE_H264_BASELINE : Int := 66

/-- `FF_PROFILE_H264_MAIN` from libavcodec/avcodec.h. -/
def FF_PROFILE_H264_MAIN : Int := 77

/-- `FF_PROFILE_H264_HIGH` from libavcodec/avcodec.h. -/
def FF_PROFILE_H264_HIGH : Int := 100

/-- `FF_LEVEL_UNKNOWN` (-99) from libavcodec/avcodec.h. -/
def FF_LEVEL_UNKNOWN : Int := -99

/-! ## Enumerations -/

/-- The AVPixelFormat values this adapter inspects; `other` stands for
every remaining member of the (large) AVPixelFormat enumeration. -/
inductive AVPixelFormat
  | nv12
  | yuv420p
  | yuyv422
  | uyvy422
  | p010
  | drm_prime
  | other (n : Nat)
deriving DecidableEq, Repr

/-- MPP native frame formats returned by `rkmpp_get_mppformat`. -/
inductive MppFrameFormat
  | yuv420sp
  | yuv420p
  | yuv422_yuyv
  | yuv422_uyvy
  | yuv420sp_10bit
deriving DecidableEq, Repr

/-- The AVCodecID values relevant to the adapter. -/
inductive AVCodecID
  | h264
  | other (n : Nat)
deriving DecidableEq, Repr

/-- MPP coding types used by the adapter (`MPP_VIDEO_CodingAVC`,
`MPP_VIDEO_CodingMJPEG`, `MPP_VIDEO_CodingUnused`). -/
inductive MppCodingType
  | avc
  | mjpeg
  | unused
deriving DecidableEq, Repr

/-- `MppEncRcMode`: constant bitrate, variable bitrate, and the
end-of-enumeration marker `MPP_ENC_RC_MODE_BUTT`. -/
inductive MppEncRcMode
  | cbr
  | vbr
  | butt
deriving DecidableEq, Repr

/-- `MppEncRcQuality` members (worst … best, constant-QP, marker). -/
inductive MppEncRcQuality
  | worst
  | worse
  | medium
  | better
  | best
  | cqp
  | butt
deriving DecidableEq, Repr

/-! ## Pure lookup functions (FormatTranslator) -/

/-- `rkmpp_get_codingtype` (rkmppenc.c lines 62-68). -/
def rkmpp_get_codingtype (codec_id : AVCodecID) : MppCodingType :=
  match codec_id with
  | .h264 => .avc
  | .other _ => .unused

/-- `rkmpp_get_mppformat` (rkmppenc.c lines 70-82); the C function
returns -1 for unmapped formats, modelled as `none`. -/
def rkmpp_get_mppformat (avformat : AVPixelFormat) : Option MppFrameFormat :=
  match avformat with
  | .nv12 => some .yuv420sp
  | .yuv420p => some .yuv420p
  | .yuyv422 => some .yuv422_yuyv
  | .uyvy422 => some .yuv422_uyvy
  | .p010 => some .yuv420sp_10bit
  | _ => none

/-! ## Caller-supplied codec context (the AVCodecContext fields read) -/

/-- The fields of `AVCodecContext` that the adapter reads or writes. -/
structure AVCodecContextEnc where
  codec_id : AVCodecID
  width : Int
  height : Int
  sw_pix_fmt : AVPixelFormat
  bit_rate : Int
  time_base_num : Int
  time_base_den : Int
  gop_size : Int
  qmin : Int
  qmax : Int
  max_qdiff : Int
  profile : Int
  level : Int
deriving DecidableEq, Repr

/-! ## Rate-control configuration (rkmpp_rc_config) -/

/-- `MppEncRcCfg` fields written by `rkmpp_rc_config`. -/
structure MppEncRcCfg where
  rc_mode : MppEncRcMode
  quality : MppEncRcQuality
  bps_target : Int
  bps_max : Int
  bps_min : Int
  fps_in_flex : Int
  fps_in_num : Int
  fps_in_denorm : Int
  fps_out_flex : Int
  fps_out_num : Int
  fps_out_denorm : Int
  gop : Int
  skip_cnt : Int
deriving DecidableEq, Repr

/-- Body of `rkmpp_rc_config` (rkmppenc.c lines 135-170), parametrised
by the mode/quality pair assigned at lines 138-139 (the source hardwires
`MPP_ENC_RC_MODE_CBR` / `MPP_ENC_RC_QUALITY_MEDIUM` there, with a
`TODO: set by AVOption`).  When the mode is neither CBR nor VBR the bps
fields keep the `memset` zeros. -/
def rkmpp_rc_config_build (avctx : AVCodecContextEnc)
    (rc_mode : MppEncRcMode) (quality : MppEncRcQuality) : MppEncRcCfg :=
  let bps : Int × Int × Int :=
    if rc_mode = .cbr then
      (avctx.bit_rate, Int.tdiv (avctx.bit_rate * 17) 16,
        Int.tdiv (avctx.bit_rate * 15) 16)
    else if rc_mode = .vbr then
      if quality = .cqp then
        (-1, -1, -1)
      else
        (avctx.bit_rate, Int.tdiv (avctx.bit_rate * 17) 16,
          Int.tdiv (avctx.bit_rate * 1) 16)
    else
      (0, 0, 0)
  let fps := Int.tdiv avctx.time_base_den avctx.time_base_num
  { rc_mode := rc_mode
    quality := quality
    bps_target := bps.1
    bps_max := bps.2.1
    bps_min := bps.2.2
    fps_in_flex := 0
    fps_in_num := fps
    fps_in_denorm := 1
    fps_out_flex := 0
    fps_out_num := fps
    fps_out_denorm := 1
    gop := avctx.gop_size
    skip_cnt := 0 }

/-- `rkmpp_rc_config` as invoked by `rkmpp_init_encoder`: the source
hardwires CBR mode at medium quality (lines 138-139). -/
def rkmpp_rc_config (avctx : AVCodecContextEnc) : MppEncRcCfg :=
  rkmpp_rc_config_build avctx .cbr .medium

/-! ## Codec configuration (rkmpp_codec_config) -/

/-- `MppEncH264Cfg` fields written by the AVC branch of
`rkmpp_codec_config`. -/
structure MppEncH264Cfg where
  profile : Int
  level : Int
  entropy_coding_mode : Int
  cabac_init_idc : Int
  transform8x8_mode : Int
  qp_max : Int
  qp_min : Int
  qp_max_step : Int
  qp_init : Int
deriving DecidableEq, Repr

/-- Codec-specific configuration union written by `rkmpp_codec_config`
(`codec_cfg->h264` for AVC, `codec_cfg->jpeg` for MJPEG). -/
inductive MppEncCodecCfg
  | h264 (cfg : MppEncH264Cfg)
  | jpeg (quant : Int)
deriving DecidableEq, Repr

/-- AVC branch of `rkmpp_codec_config` (rkmppenc.c lines 190-257).
Returns the built `h264` block together with the updated codec context
(the source writes the coerced profile/level back into `avctx`). -/
def rkmpp_codec_config_h264 (avctx : AVCodecContextEnc)
    (rc_cfg : MppEncRcCfg) : MppEncH264Cfg × AVCodecContextEnc :=
  let qp_min := avctx.qmin
  let qp_max := avctx.qmax
  let qp_step := avctx.max_qdiff
  let qp_init : Int := 26
  let profile :=
    if avctx.profile ≠ FF_PROFILE_H264_BASELINE ∧
        avctx.profile ≠ FF_PROFILE_H264_MAIN ∧
        avctx.profile ≠ FF_PROFILE_H264_HIGH then
      FF_PROFILE_H264_HIGH
    else
      avctx.profile
  let level := if avctx.level = FF_LEVEL_UNKNOWN then 51 else avctx.level
  let entropy_coding_mode : Int :=
    if profile = FF_PROFILE_H264_HIGH then 1 else 0
  let q : Int × Int × Int × Int :=
    if rc_cfg.rc_mode = .cbr then
      (48, 4, 16, 0)
    else if rc_cfg.rc_mode = .vbr then
      if rc_cfg.quality = .cqp then
        (qp_init, qp_init, 0, qp_init)
      else
        (40, 12, 8, 0)
    else
      (qp_max, qp_min, qp_step, qp_init)
  ({ profile := profile
     level := level
     entropy_coding_mode := entropy_coding_mode
     cabac_init_idc := 0
     transform8x8_mode := 1
     qp_max := q.1
     qp_min := q.2.1
     qp_max_step := q.2.2.1
     qp_init := q.2.2.2 },
   { avctx with profile := profile, level := level })

/-- `rkmpp_codec_config` dispatch (rkmppenc.c lines 181-275): AVC and
MJPEG are handled, every other coding type fails with
`AVERROR_UNKNOWN`.  Engine acceptance of the block (the `mpi->control`
call) is external and not part of the pure build. -/
def rkmpp_codec_config (codectype : MppCodingType)
    (avctx : AVCodecContextEnc) (rc_cfg : MppEncRcCfg) :
    Except Int (MppEncCodecCfg × AVCodecContextEnc) :=
  match codectype with
  | .avc =>
      let r := rkmpp_codec_config_h264 avctx rc_cfg
      .ok (.h264 r.1, r.2)
  | .mjpeg => .ok (.jpeg 10, avctx)
  | .unused => .error AVERROR_UNKNOWN

/-! ## DRM frame descriptors and input frames -/

/-- One plane of an `AVDRMLayerDescriptor` (offset and pitch are
`ptrdiff_t` in the source). -/
structure AVDRMPlaneDescriptor where
  offset : Int
  pitch : Int
deriving DecidableEq, Repr

/-- The fields of `AVDRMLayerDescriptor` the adapter reads
(`layers[0]`): plane count plus the first two planes. -/
structure AVDRMLayerDescriptor where
  nb_planes : Int
  plane0 : AVDRMPlaneDescriptor
  plane1 : AVDRMPlaneDescriptor
deriving DecidableEq, Repr

/-- The fields of `AVDRMObjectDescriptor` the adapter reads
(`objects[0]`): the dma-buf file descriptor and its size. -/
structure AVDRMObjectDescriptor where
  fd : Int
  size : Nat
deriving DecidableEq, Repr

/-- The parts of `AVDRMFrameDescriptor` the adapter reads. -/
structure AVDRMFrameDescriptor where
  object0 : AVDRMObjectDescriptor
  layer0 : AVDRMLayerDescriptor
deriving DecidableEq, Repr

/-- The fields of an input `AVFrame` the adapter reads; `sw_format` is
`((AVHWFramesContext*)avframe->hw_frames_ctx->data)->sw_format` and
`desc` is the `AVDRMFrameDescriptor` behind `avframe->data[0]`. -/
structure AVFrame where
  format : AVPixelFormat
  sw_format : AVPixelFormat
  pts : Int
  pkt_dts : Int
  width : Int
  height : Int
  desc : AVDRMFrameDescriptor
deriving DecidableEq, Repr

/-! ## MPP frame descriptors (FrameSubmitter output) -/

/-- The fields of an engine `MppFrame` set by `rkmpp_queue_frame`. -/
structure MppFrameDesc where
  eos : Bool
  pts : Int
  dts : Int
  width : Int
  height : Int
  hor_stride : Int
  ver_stride : Int
  fmt : Option MppFrameFormat
  has_buffer : Bool
deriving DecidableEq, Repr

/-- A freshly `mpp_frame_init`-ed descriptor, all fields blank. -/
def mpp_frame_blank : MppFrameDesc :=
  { eos := false, pts := 0, dts := 0, width := 0, height := 0,
    hor_stride := 0, ver_stride := 0, fmt := none, has_buffer := false }

/-- Resource events recorded during `rkmpp_queue_frame`, in call
order: descriptor allocation (`mpp_frame_init`), buffer import
(`mpp_buffer_import`), successful task enqueue, buffer release
(`mpp_buffer_put`), descriptor release (`mpp_frame_deinit`). -/
inductive QFEvent
  | frameInit
  | bufferImport
  | taskEnqueued
  | bufferPut
  | frameDeinit
deriving DecidableEq, Repr

/-- Outcomes of the external MPP calls made by `rkmpp_queue_frame`:
each `_ret` field is the engine's return code at that call site
(`MPP_OK` = 0), and `dequeue_in_task` tells whether the dequeued task
handle is non-null. -/
structure MppEnv where
  frame_init_ret : Int
  buffer_import_ret : Int
  poll_in_ret : Int
  dequeue_in_ret : Int
  dequeue_in_task : Bool
  enqueue_in_ret : Int
deriving DecidableEq, Repr

/-- Result of `rkmpp_queue_frame`: the C return value, the value stored
through `out_frame` (written only on success; the caller initialises it
to null), and the resource-event trace. -/
structure QueueFrameResult where
  ret : Int
  out_frame : Option MppFrameDesc
  events : List QFEvent
deriving DecidableEq, Repr

/-- The `out:` epilogue of `rkmpp_queue_frame` (rkmppenc.c lines
511-516): put the buffer if non-null, deinit the frame if still held,
then `return 0;` — the error code computed before the `goto out` is
discarded by the source's final `return 0` statement, which is why the
`r` argument does not appear in the result. -/
def qf_out (r : Int) (buffer_live frame_live : Bool)
    (evs : List QFEvent) (ofr : Option MppFrameDesc) : QueueFrameResult :=
  let evs := if buffer_live then evs ++ [.bufferPut] else evs
  let evs := if frame_live then evs ++ [.frameDeinit] else evs
  let _ := r
  { ret := 0, out_frame := ofr, events := evs }

/-- Poll/dequeue/enqueue tail of `rkmpp_queue_frame` (rkmppenc.c lines
485-509): block-poll the input port, dequeue a task, attach the frame,
enqueue; every failure jumps to the `out:` epilogue. -/
def rkmpp_queue_frame_tail (frame : MppFrameDesc) (buffer_live : Bool)
    (env : MppEnv) (evs : List QFEvent) : QueueFrameResult :=
  if env.poll_in_ret ≠ 0 then
    qf_out AVERROR_UNKNOWN buffer_live true evs none
  else if env.dequeue_in_ret ≠ 0 ∨ env.dequeue_in_task = false then
    qf_out AVERROR_UNKNOWN buffer_live true evs none
  else if env.enqueue_in_ret ≠ 0 then
    qf_out AVERROR_UNKNOWN buffer_live true evs none
  else
    qf_out 0 buffer_live false (evs ++ [.taskEnqueued]) (some frame)

/-- `rkmpp_queue_frame` (rkmppenc.c lines 416-517).  `encoder_eos` is
`encoder->eos_reached` at entry; a null `avframe` submits the
end-of-stream marker.  The format checks (lines 429-441) run before
`mpp_frame_init` and return `AVERROR(EINVAL)` directly; a
`mpp_frame_init` failure returns `AVERROR_UNKNOWN` directly (line 446);
later failures go through the `out:` epilogue. -/
def rkmpp_queue_frame (encoder_eos : Bool) (avframe : Option AVFrame)
    (env : MppEnv) : QueueFrameResult :=
  match avframe with
  | some f =>
      if f.format ≠ .drm_prime then
        { ret := AVERROR_EINVAL, out_frame := none, events := [] }
      else
        match rkmpp_get_mppformat f.sw_format with
        | none => { ret := AVERROR_EINVAL, out_frame := none, events := [] }
        | some mppformat =>
            if env.frame_init_ret ≠ 0 then
              { ret := AVERROR_UNKNOWN, out_frame := none, events := [] }
            else
              let layer := f.desc.layer0
              let hor_stride :=
                if mppformat = .yuv422_yuyv ∨ mppformat = .yuv422_uyvy then
                  2 * layer.plane0.pitch
                else
                  layer.plane0.pitch
              let ver_stride :=
                if layer.nb_planes > 1 then
                  Int.tdiv layer.plane1.offset layer.plane0.pitch
                else
                  f.height
              let frame : MppFrameDesc :=
                { mpp_frame_blank with
                    eos := encoder_eos
                    pts := f.pts
                    dts := f.pkt_dts
                    width := f.width
                    height := f.height
                    hor_stride := hor_stride
                    ver_stride := ver_stride
                    fmt := some mppformat }
              if env.buffer_import_ret ≠ 0 then
                qf_out AVERROR_EINVAL false true [.frameInit] none
              else
                rkmpp_queue_frame_tail { frame with has_buffer := true }
                  true env [.frameInit, .bufferImport]
  | none =>
      if env.frame_init_ret ≠ 0 then
        { ret := AVERROR_UNKNOWN, out_frame := none, events := [] }
      else
        rkmpp_queue_frame_tail { mpp_frame_blank with eos := encoder_eos }
          false env [.frameInit]

/-! ## Encoder session state and rkmpp_send_frame -/

/-- `RKMPPEncoder`'s mutable session state: the `eos_reached` flag. -/
structure EncState where
  eos_reached : Bool
deriving DecidableEq, Repr

/-- Result of `rkmpp_send_frame`: return code, updated session state,
and the `MppFrame` handle passed back through `mpp_frame`. -/
structure SendFrameResult where
  ret : Int
  st : EncState
  mpp_frame : Option MppFrameDesc
deriving DecidableEq, Repr

/-- `rkmpp_send_frame` (rkmppenc.c lines 519-540): a null frame sets
`eos_reached` to 1 first and then queues the end-of-stream marker. -/
def rkmpp_send_frame (st : EncState) (frame : Option AVFrame)
    (env : MppEnv) : SendFrameResult :=
  match frame with
  | none =>
      let st' : EncState := { st with eos_reached := true }
      let r := rkmpp_queue_frame st'.eos_reached none env
      { ret := r.ret, st := st', mpp_frame := r.out_frame }
  | some f =>
      let r := rkmpp_queue_frame st.eos_reached (some f) env
      { ret := r.ret, st := st, mpp_frame := r.out_frame }

/-! ## Packet retrieval (rkmpp_receive_packet) -/

/-- The fields of a native `MppPacket` the adapter reads: end-of-stream
flag, payload length, timestamps and flag bits. -/
structure MppPacketIn where
  eos : Bool
  length : Nat
  pts : Int
  dts : Int
  flag : Nat
deriving DecidableEq, Repr

/-- Outcomes of the external calls made by `rkmpp_receive_packet`:
output-port poll/dequeue/enqueue return codes, whether the dequeued
task handle is non-null, the packet payload carried by the task
(`mpp_task_meta_get_packet`, null modelled as `none`), and success of
the two libavutil allocations. -/
structure RecvEnv where
  poll_out_ret : Int
  dequeue_out_ret : Int
  dequeue_out_task : Bool
  task_packet : Option MppPacketIn
  enqueue_out_ret : Int
  pkt_ctx_alloc_ok : Bool
  buf_create_ok : Bool
deriving DecidableEq, Repr

/-- The fields of the caller's `AVPacket` written by
`rkmpp_receive_packet` (`data_set` records whether `pkt->data` was
assigned, `has_buf` whether `pkt->buf` was created). -/
structure AVPacket where
  data_set : Bool
  size : Nat
  has_buf : Bool
  pts : Int
  dts : Int
  flags : Nat
deriving DecidableEq, Repr

/-- An `AVPacket` as handed in by the caller, nothing written yet. -/
def avpacket_blank : AVPacket :=
  { data_set := false, size := 0, has_buf := false,
    pts := 0, dts := 0, flags := 0 }

/-- Resource events recorded during `rkmpp_receive_packet`: the task
re-enqueue, native packet release (`mpp_packet_deinit`), and release of
the paired frame descriptor (`mpp_frame_deinit`). -/
inductive RPEvent
  | taskReenqueued
  | packetDeinit
  | frameDeinit
deriving DecidableEq, Repr

/-- Result of `rkmpp_receive_packet`: return code, the caller's packet
after the call, the value left in `*mpp_frame` (always null on exit),
and the resource-event trace. -/
structure ReceivePacketResult where
  ret : Int
  pkt : AVPacket
  mpp_frame : Option MppFrameDesc
  events : List RPEvent
deriving DecidableEq, Repr

/-- The `fail:` epilogue of `rkmpp_receive_packet` (rkmppenc.c lines
629-636), also reached by normal fall-through: deinit the native packet
if still held, deinit and null the paired frame descriptor, return the
current `ret`. -/
def rp_fail (r : Int) (packet_live : Bool) (mf : Option MppFrameDesc)
    (pkt : AVPacket) (evs : List RPEvent) : ReceivePacketResult :=
  let evs := if packet_live then evs ++ [.packetDeinit] else evs
  let evs := if mf.isSome then evs ++ [.frameDeinit] else evs
  { ret := r, pkt := pkt, mpp_frame := none, events := evs }

/-- Timestamp normalization applied at rkmppenc.c lines 616-621: first
`pkt->pts = pkt->dts` when `pkt->pts <= 0`, then `pkt->dts = pkt->pts`
(the possibly updated pts) when `pkt->dts <= 0`. -/
def normalize_ts (pts dts : Int) : Int × Int :=
  let pts' := if pts ≤ 0 then dts else pts
  let dts' := if dts ≤ 0 then pts' else dts
  (pts', dts')

/-- `rkmpp_receive_packet` (rkmppenc.c lines 551-637).  `st` is the
session state, `pkt0` the caller's packet, `mf` the frame-descriptor
handle paired with this exchange. -/
def rkmpp_receive_packet (st : EncState) (pkt0 : AVPacket)
    (mf : Option MppFrameDesc) (env : RecvEnv) : ReceivePacketResult :=
  if env.poll_out_ret ≠ 0 then
    rp_fail AVERROR_UNKNOWN false mf pkt0 []
  else if env.dequeue_out_ret ≠ 0 ∨ env.dequeue_out_task = false then
    rp_fail AVERROR_UNKNOWN false mf pkt0 []
  else
    let packet := env.task_packet
    if env.enqueue_out_ret ≠ 0 then
      rp_fail AVERROR_UNKNOWN packet.isSome mf pkt0 []
    else
      match packet with
      | none =>
          -- task carried no packet payload: the `if (packet)` block is
          -- skipped and `ret` still holds the enqueue's MPP_OK
          rp_fail 0 false mf pkt0 [.taskReenqueued]
      | some p =>
          if p.eos && st.eos_reached then
            rp_fail AVERROR_EOF true mf pkt0 [.taskReenqueued]
          else if ¬env.pkt_ctx_alloc_ok then
            rp_fail AVERROR_ENOMEM true mf pkt0 [.taskReenqueued]
          else
            let pkt := { pkt0 with data_set := true, size := p.length }
            if ¬env.buf_create_ok then
              rp_fail AVERROR_ENOMEM true mf pkt [.taskReenqueued]
            else
              let pkt := { pkt with has_buf := true }
              let ts := normalize_ts p.pts p.dts
              let pkt := { pkt with pts := ts.1, dts := ts.2 }
              let pkt :=
                if p.flag &&& MPP_PACKET_FLAG_INTRA ≠ 0 then
                  { pkt with flags := pkt.flags ||| AV_PKT_FLAG_KEY }
                else
                  pkt
              rp_fail 0 false mf pkt [.taskReenqueued]

/-! ## rkmpp_encode_frame -/

/-- Result of `rkmpp_encode_frame`: return code, session state, the
caller's packet, and `*got_packet` (`none` when the source returns
before writing it). -/
structure EncodeFrameResult where
  ret : Int
  st : EncState
  pkt : AVPacket
  got_packet : Option Int
deriving DecidableEq, Repr

/-- `rkmpp_encode_frame` (rkmppenc.c lines 639-660): send then receive;
`AVERROR(EAGAIN)` and `AVERROR_EOF` from the receive become
`*got_packet = 0` with success, other receive failures propagate, and a
zero receive return reports `*got_packet = 1`. -/
def rkmpp_encode_frame (st : EncState) (pkt : AVPacket)
    (frame : Option AVFrame) (qenv : MppEnv) (renv : RecvEnv) :
    EncodeFrameResult :=
  let s := rkmpp_send_frame st frame qenv
  if s.ret ≠ 0 then
    { ret := s.ret, st := s.st, pkt := pkt, got_packet := none }
  else
    let r := rkmpp_receive_packet s.st pkt s.mpp_frame renv
    if r.ret = AVERROR_EAGAIN ∨ r.ret = AVERROR_EOF then
      { ret := 0, st := s.st, pkt := r.pkt, got_packet := some 0 }
    else if r.ret ≠ 0 then
      { ret := r.ret, st := s.st, pkt := r.pkt, got_packet := none }
    else
      { ret := 0, st := s.st, pkt := r.pkt, got_packet := some 1 }

/-! ## Concrete sample values used by witnesses and counterexamples -/

/-- An environment in which every MPP call succeeds. -/
def mpp_env_ok : MppEnv :=
  { frame_init_ret := 0, buffer_import_ret := 0, poll_in_ret := 0,
    dequeue_in_ret := 0, dequeue_in_task := true, enqueue_in_ret := 0 }

/-- `mpp_env_ok` with the input-port poll failing. -/
def mpp_env_poll_fail : MppEnv := { mpp_env_ok with poll_in_ret := -1 }

/-- `mpp_env_ok` with the task dequeue yielding a null task. -/
def mpp_env_dequeue_fail : MppEnv :=
  { mpp_env_ok with dequeue_in_task := false }

/-- `mpp_env_ok` with the task enqueue failing. -/
def mpp_env_enqueue_fail : MppEnv :=
  { mpp_env_ok with enqueue_in_ret := -1 }

/-- `mpp_env_ok` with the buffer import failing. -/
def mpp_env_import_fail : MppEnv :=
  { mpp_env_ok with buffer_import_ret := -1 }

/-- A well-formed NV12 DRM-prime input frame (1920x1080, two planes). -/
def drm_frame_ex : AVFrame :=
  { format := .drm_prime, sw_format := .nv12, pts := 1, pkt_dts := 1,
    width := 1920, height := 1080,
    desc :=
      { object0 := { fd := 4, size := 3110400 },
        layer0 :=
          { nb_planes := 2,
            plane0 := { offset := 0, pitch := 1920 },
            plane1 := { offset := 2211840, pitch := 1920 } } } }

/-- An end-of-stream-flagged native packet. -/
def eos_packet_ex : MppPacketIn :=
  { eos := true, length := 128, pts := 0, dts := 0, flag := 0 }

/-- A retrieval environment that succeeds and delivers
`eos_packet_ex`. -/
def recv_env_eos : RecvEnv :=
  { poll_out_ret := 0, dequeue_out_ret := 0, dequeue_out_task := true,
    task_packet := some eos_packet_ex, enqueue_out_ret := 0,
    pkt_ctx_alloc_ok := true, buf_create_ok := true }

/-- A retrieval environment whose dequeued task carries no packet. -/
def recv_env_empty_task : RecvEnv :=
  { recv_env_eos with task_packet := none }

/-- A non-end-of-stream native packet with pts 0, dts 7 and the intra
flag bit set. -/
def pkt07_ex : MppPacketIn :=
  { eos := false, length := 16, pts := 0, dts := 7, flag := 8 }

/-- A retrieval environment that succeeds and delivers `pkt07_ex`. -/
def recv_env_pkt07 : RecvEnv :=
  { recv_env_eos with task_packet := some pkt07_ex }

/-- The scenario codec context from the spec (1920x1080, 4 Mbps,
GOP 30, 30/1 frame rate), with caller QP hints and a valid profile and
the unknown-level sentinel. -/
def avctx_ex : AVCodecContextEnc :=
  { codec_id := .h264, width := 1920, height := 1080,
    sw_pix_fmt := .nv12, bit_rate := 4000000,
    time_base_num := 1, time_base_den := 30, gop_size := 30,
    qmin := 2, qmax := 31, max_qdiff := 3,
    profile := FF_PROFILE_H264_HIGH, level := FF_LEVEL_UNKNOWN }

/-! ## Claim theorems: configuration -/

/-- C3: rate-control bitrate bounds: constant-bitrate programs
target = B, min = B*15/16, max = B*17/16; variable-bitrate with
variable quality programs target = B, min = B*1/16, max = B*17/16;
variable-bitrate with fixed quality (constant QP) programs the -1
sentinel into all three fields (truncating integer division
throughout). -/
theorem C3_rc_bitrate_bounds (avctx : AVCodecContextEnc)
    (q : MppEncRcQuality) (hq : q ≠ .cqp) :
    ((rkmpp_rc_config_build avctx .cbr q).bps_target = avctx.bit_rate ∧
      (rkmpp_rc_config_build avctx .cbr q).bps_min =
        Int.tdiv (avctx.bit_rate * 15) 16 ∧
      (rkmpp_rc_config_build avctx .cbr q).bps_max =
        Int.tdiv (avctx.bit_rate * 17) 16) ∧
    ((rkmpp_rc_config_build avctx .vbr q).bps_target = avctx.bit_rate ∧
      (rkmpp_rc_config_build avctx .vbr q).bps_min =
        Int.tdiv (avctx.bit_rate * 1) 16 ∧
      (rkmpp_rc_config_build avctx .vbr q).bps_max =
        Int.tdiv (avctx.bit_rate * 17) 16) ∧
    ((rkmpp_rc_config_build avctx .vbr .cqp).bps_target = -1 ∧
      (rkmpp_rc_config_build avctx .vbr .cqp).bps_min = -1 ∧
      (rkmpp_rc_config_build avctx .vbr .cqp).bps_max = -1) := by
  refine ⟨?_, ?_, ?_⟩ <;> simp [rkmpp_rc_config_build, hq]

/-- C3 witness: the spec scenario (4 Mbps, CBR) and the CQP sentinel. -/
theorem C3_rc_bitrate_bounds_witness :
    (rkmpp_rc_config_build avctx_ex .cbr .medium).bps_target =
      avctx_ex.bit_rate ∧
    (rkmpp_rc_config_build avctx_ex .cbr .medium).bps_min = 3750000 ∧
    (rkmpp_rc_config_build avctx_ex .vbr .cqp).bps_target = -1 := by
  have h := C3_rc_bitrate_bounds avctx_ex .medium (by decide)
  exact ⟨h.1.1, h.1.2.1.trans (by decide), h.2.2.1⟩

/-- C4: AVC QP programming as a function of rate-control mode:
CBR gives (48, 4, 16, 0); VBR with constant QP gives
qp_max = qp_min = qp_init with step 0; VBR with variable quality gives
(40, 12, 8, 0); and in all three cases the programmed QP fields are
independent of the caller's qmin/qmax/max_qdiff. -/
theorem C4_qp_table (avctx : AVCodecContextEnc) (rc : MppEncRcCfg) :
    (rc.rc_mode = .cbr →
      ((rkmpp_codec_config_h264 avctx rc).1.qp_max = 48 ∧
        (rkmpp_codec_config_h264 avctx rc).1.qp_min = 4 ∧
        (rkmpp_codec_config_h264 avctx rc).1.qp_max_step = 16 ∧
        (rkmpp_codec_config_h264 avctx rc).1.qp_init = 0)) ∧
    (rc.rc_mode = .vbr → rc.quality = .cqp →
      ((rkmpp_codec_config_h264 avctx rc).1.qp_max =
          (rkmpp_codec_config_h264 avctx rc).1.qp_init ∧
        (rkmpp_codec_config_h264 avctx rc).1.qp_min =
          (rkmpp_codec_config_h264 avctx rc).1.qp_init ∧
        (rkmpp_codec_config_h264 avctx rc).1.qp_max_step = 0)) ∧
    (rc.rc_mode = .vbr → rc.quality ≠ .cqp →
      ((rkmpp_codec_config_h264 avctx rc).1.qp_max = 40 ∧
        (rkmpp_codec_config_h264 avctx rc).1.qp_min = 12 ∧
        (rkmpp_codec_config_h264 avctx rc).1.qp_max_step = 8 ∧
        (rkmpp_codec_config_h264 avctx rc).1.qp_init = 0)) ∧
    ((rc.rc_mode = .cbr ∨ rc.rc_mode = .vbr) →
      ∀ avctx2 : AVCodecContextEnc,
        (rkmpp_codec_config_h264 avctx2 rc).1.qp_max =
          (rkmpp_codec_config_h264 avctx rc).1.qp_max ∧
        (rkmpp_codec_config_h264 avctx2 rc).1.qp_min =
          (rkmpp_codec_config_h264 avctx rc).1.qp_min ∧
        (rkmpp_codec_config_h264 avctx2 rc).1.qp_max_step =
          (rkmpp_codec_config_h264 avctx rc).1.qp_max_step ∧
        (rkmpp_codec_config_h264 avctx2 rc).1.qp_init =
          (rkmpp_codec_config_h264 avctx rc).1.qp_init) := by
  refine ⟨?_, ?_, ?_, ?_⟩
  · intro h
    simp [rkmpp_codec_config_h264, h]
  · intro h hq
    simp [rkmpp_codec_config_h264, h, hq]
  · intro h hq
    simp [rkmpp_codec_config_h264, h, hq]
  · rintro (h | h) avctx2
    · simp [rkmpp_codec_config_h264, h]
    · by_cases hq : rc.quality = .cqp <;>
        simp [rkmpp_codec_config_h264, h, hq]

/-- C4 witness: the spec scenario (CBR) programs QP bounds
(48, 4, 16, 0). -/
theorem C4_qp_table_witness :
    (rkmpp_codec_config_h264 avctx_ex (rkmpp_rc_config avctx_ex)).1.qp_max
      = 48 ∧
    (rkmpp_codec_config_h264 avctx_ex (rkmpp_rc_config avctx_ex)).1.qp_min
      = 4 := by
  have h := C4_qp_table avctx_ex (rkmpp_rc_config avctx_ex)
  have hc := h.1 (by decide)
  exact ⟨hc.1, hc.2.1⟩

/-- C5 counterexample: 9 is not among the H.264 levels the source's own
comment enumerates as recognized, yet the AVC configuration programs it
unchanged (9, not 51): only the `FF_LEVEL_UNKNOWN` sentinel is coerced,
not every unrecognized level. -/
theorem C5_counterexample :
    (9 : Int) ∉ ([10, 11, 12, 13, 20, 21, 22, 30, 31, 32,
        40, 41, 42, 50, 51, 52] : List Int) ∧
    (rkmpp_codec_config_h264 { avctx_ex with level := 9 }
        (rkmpp_rc_config avctx_ex)).1.level = 9 ∧
    (9 : Int) ≠ 51 := by
  refine ⟨by decide, ?_, by decide⟩
  simp [rkmpp_codec_config_h264, rkmpp_rc_config, rkmpp_rc_config_build,
    avctx_ex, FF_LEVEL_UNKNOWN]

/-- C5 amended: a profile outside {baseline, main, high} is replaced
with high before being programmed, a profile inside the set is kept; a
level equal to the `FF_LEVEL_UNKNOWN` sentinel (-99) is replaced with
51, any other level value -- recognized or not -- is programmed
unchanged; and the AVC configuration never rejects a profile or level
with an error. -/
theorem C5_profile_level_coercion (avctx : AVCodecContextEnc)
    (rc : MppEncRcCfg) :
    ((avctx.profile ≠ FF_PROFILE_H264_BASELINE ∧
        avctx.profile ≠ FF_PROFILE_H264_MAIN ∧
        avctx.profile ≠ FF_PROFILE_H264_HIGH) →
      (rkmpp_codec_config_h264 avctx rc).1.profile =
        FF_PROFILE_H264_HIGH) ∧
    ((avctx.profile = FF_PROFILE_H264_BASELINE ∨
        avctx.profile = FF_PROFILE_H264_MAIN ∨
        avctx.profile = FF_PROFILE_H264_HIGH) →
      (rkmpp_codec_config_h264 avctx rc).1.profile = avctx.profile) ∧
    (avctx.level = FF_LEVEL_UNKNOWN →
      (rkmpp_codec_config_h264 avctx rc).1.level = 51) ∧
    (avctx.level ≠ FF_LEVEL_UNKNOWN →
      (rkmpp_codec_config_h264 avctx rc).1.level = avctx.level) ∧
    rkmpp_codec_config .avc avctx rc =
      .ok (.h264 (rkmpp_codec_config_h264 avctx rc).1,
        (rkmpp_codec_config_h264 avctx rc).2) := by
  refine ⟨?_, ?_, ?_, ?_, rfl⟩
  · intro h
    simp [rkmpp_codec_config_h264, h]
  · rintro (h | h | h) <;> simp [rkmpp_codec_config_h264, h,
      FF_PROFILE_H264_BASELINE, FF_PROFILE_H264_MAIN, FF_PROFILE_H264_HIGH]
  · intro h
    simp [rkmpp_codec_config_h264, h]
  · intro h
    simp [rkmpp_codec_config_h264, h]

/-- C5 witness: an out-of-set profile (constrained baseline, 578) is
coerced to high; level 30 passes through unchanged. -/
theorem C5_profile_level_coercion_witness :
    (rkmpp_codec_config_h264
        { avctx_ex with profile := 578, level := 30 }
        (rkmpp_rc_config avctx_ex)).1.profile = FF_PROFILE_H264_HIGH ∧
    (rkmpp_codec_config_h264
        { avctx_ex with profile := 578, level := 30 }
        (rkmpp_rc_config avctx_ex)).1.level = 30 := by
  have h := C5_profile_level_coercion
    { avctx_ex with profile := 578, level := 30 }
    (rkmpp_rc_config avctx_ex)
  exact ⟨h.1 (by decide), h.2.2.2.1 (by decide)⟩

/-- C8: the AVC entropy-coding-mode field is 1 (CABAC) exactly when the
post-coercion profile is high, 0 otherwise, and the transform-8x8 field
is always 1. -/
theorem C8_entropy_and_transform (avctx : AVCodecContextEnc)
    (rc : MppEncRcCfg) :
    ((rkmpp_codec_config_h264 avctx rc).1.entropy_coding_mode = 1 ↔
      (rkmpp_codec_config_h264 avctx rc).1.profile =
        FF_PROFILE_H264_HIGH) ∧
    ((rkmpp_codec_config_h264 avctx rc).1.profile ≠
        FF_PROFILE_H264_HIGH →
      (rkmpp_codec_config_h264 avctx rc).1.entropy_coding_mode = 0) ∧
    (rkmpp_codec_config_h264 avctx rc).1.transform8x8_mode = 1 := by
  by_cases h : avctx.profile ≠ FF_PROFILE_H264_BASELINE ∧
      avctx.profile ≠ FF_PROFILE_H264_MAIN ∧
      avctx.profile ≠ FF_PROFILE_H264_HIGH
  · simp [rkmpp_codec_config_h264, h]
  · by_cases hh : avctx.profile = FF_PROFILE_H264_HIGH <;>
      simp [rkmpp_codec_config_h264, h, hh, FF_PROFILE_H264_BASELINE,
        FF_PROFILE_H264_MAIN, FF_PROFILE_H264_HIGH]
  
/-- C8 witness: with a main-profile context entropy coding is 0 and
transform-8x8 is 1; with the (coerced-to-)high spec scenario entropy
coding is 1. -/
theorem C8_entropy_and_transform_witness :
    (rkmpp_codec_config_h264 { avctx_ex with profile := 77 }
        (rkmpp_rc_config avctx_ex)).1.entropy_coding_mode = 0 ∧
    (rkmpp_codec_config_h264 avctx_ex
        (rkmpp_rc_config avctx_ex)).1.transform8x8_mode = 1 := by
  have h77 := C8_entropy_and_transform { avctx_ex with profile := 77 }
    (rkmpp_rc_config avctx_ex)
  have hhi := C8_entropy_and_transform avctx_ex (rkmpp_rc_config avctx_ex)
  refine ⟨h77.2.1 (by decide), hhi.2.2⟩

/-! ## Claim theorems: submission and retrieval -/

/-- C1 counterexample: `encode(null)` sets `eos_reached` before the
marker is submitted, so the very first retrieval that dequeues the
end-of-stream-flagged packet already sees `eos_reached` set and fails
with `AVERROR_EOF`; the end-of-stream packet is never returned to the
caller (the caller's packet is untouched), contradicting the claim that
exactly one retrieval returns an end-of-stream-flagged packet and that
the first such packet never produces the terminal condition. -/
theorem C1_counterexample :
    (rkmpp_send_frame { eos_reached := false } none mpp_env_ok).ret = 0 ∧
    (rkmpp_send_frame { eos_reached := false } none
        mpp_env_ok).st.eos_reached = true ∧
    eos_packet_ex.eos = true ∧
    recv_env_eos.task_packet = some eos_packet_ex ∧
    (rkmpp_receive_packet
        (rkmpp_send_frame { eos_reached := false } none mpp_env_ok).st
        avpacket_blank
        (rkmpp_send_frame { eos_reached := false } none mpp_env_ok).mpp_frame
        recv_env_eos).ret = AVERROR_EOF ∧
    (rkmpp_receive_packet
        (rkmpp_send_frame { eos_reached := false } none mpp_env_ok).st
        avpacket_blank
        (rkmpp_send_frame { eos_reached := false } none mpp_env_ok).mpp_frame
        recv_env_eos).pkt = avpacket_blank := by
  decide

/-- C1 amended: after `encode(null)` the session has `eos_reached`
set, and from then on every retrieval that dequeues an
end-of-stream-flagged packet fails with `AVERROR_EOF`, leaving the
caller's packet unwritten and releasing the native packet -- no
end-of-stream-flagged packet is ever returned to the caller. -/
theorem C1_eos_drain (st st' : EncState) (qenv : MppEnv)
    (pkt0 : AVPacket) (mf : Option MppFrameDesc) (env : RecvEnv)
    (p : MppPacketIn) (hst : st'.eos_reached = true)
    (hpoll : env.poll_out_ret = 0) (hdq : env.dequeue_out_ret = 0)
    (htask : env.dequeue_out_task = true)
    (henq : env.enqueue_out_ret = 0)
    (hpkt : env.task_packet = some p) (heos : p.eos = true) :
    (rkmpp_send_frame st none qenv).st.eos_reached = true ∧
    (rkmpp_receive_packet st' pkt0 mf env).ret = AVERROR_EOF ∧
    (rkmpp_receive_packet st' pkt0 mf env).pkt = pkt0 ∧
    RPEvent.packetDeinit ∈ (rkmpp_receive_packet st' pkt0 mf env).events := by
  refine ⟨by simp [rkmpp_send_frame], ?_, ?_, ?_⟩ <;>
    simp [rkmpp_receive_packet, rp_fail, hpoll, hdq, htask, henq, hpkt,
      heos, hst] <;>
    cases mf <;> simp

/-- C1 amended witness: the concrete end-of-stream drain run. -/
theorem C1_eos_drain_witness :
    (rkmpp_receive_packet { eos_reached := true } avpacket_blank none
        recv_env_eos).ret = AVERROR_EOF := by
  have h := C1_eos_drain { eos_reached := false } { eos_reached := true }
    mpp_env_ok avpacket_blank none recv_env_eos eos_packet_ex
    rfl rfl rfl rfl rfl rfl rfl
  exact h.2.1

/-- C2: the source releases the frame descriptor on every
post-allocation failure (poll, dequeue, enqueue, buffer import), but
its final statement is `return 0`, discarding the error code it just
computed: the caller observes success for all four failure kinds
instead of the non-success result the claim requires. -/
theorem C2_error_swallowed :
    ((rkmpp_queue_frame true none mpp_env_poll_fail).ret = 0 ∧
      QFEvent.frameDeinit ∈
        (rkmpp_queue_frame true none mpp_env_poll_fail).events) ∧
    ((rkmpp_queue_frame false (some drm_frame_ex)
        mpp_env_import_fail).ret = 0 ∧
      QFEvent.frameDeinit ∈ (rkmpp_queue_frame false (some drm_frame_ex)
        mpp_env_import_fail).events) ∧
    ((rkmpp_queue_frame false (some drm_frame_ex)
        mpp_env_dequeue_fail).ret = 0 ∧
      QFEvent.frameDeinit ∈ (rkmpp_queue_frame false (some drm_frame_ex)
        mpp_env_dequeue_fail).events) ∧
    ((rkmpp_queue_frame false (some drm_frame_ex)
        mpp_env_enqueue_fail).ret = 0 ∧
      QFEvent.frameDeinit ∈ (rkmpp_queue_frame false (some drm_frame_ex)
        mpp_env_enqueue_fail).events) := by
  decide

/-- C6: a successfully retrieved packet carries the normalized
timestamps of the native packet; the normalization substitutes the
decode time for a non-positive presentation time first, then the
(possibly updated) presentation time for a non-positive decode time; it
is idempotent, and two non-positive inputs stay non-positive. -/
theorem C6_timestamp_normalization (st : EncState) (pkt0 : AVPacket)
    (mf : Option MppFrameDesc) (env : RecvEnv) (p : MppPacketIn)
    (pts dts : Int)
    (hpoll : env.poll_out_ret = 0) (hdq : env.dequeue_out_ret = 0)
    (htask : env.dequeue_out_task = true)
    (henq : env.enqueue_out_ret = 0)
    (hpkt : env.task_packet = some p)
    (heos : (p.eos && st.eos_reached) = false)
    (halloc : env.pkt_ctx_alloc_ok = true)
    (hbuf : env.buf_create_ok = true) :
    ((rkmpp_receive_packet st pkt0 mf env).pkt.pts =
        (normalize_ts p.pts p.dts).1 ∧
      (rkmpp_receive_packet st pkt0 mf env).pkt.dts =
        (normalize_ts p.pts p.dts).2) ∧
    ((normalize_ts pts dts).1 = (if pts ≤ 0 then dts else pts) ∧
      (normalize_ts pts dts).2 =
        (if dts ≤ 0 then (if pts ≤ 0 then dts else pts) else dts)) ∧
    normalize_ts (normalize_ts pts dts).1 (normalize_ts pts dts).2 =
      normalize_ts pts dts ∧
    (pts ≤ 0 → dts ≤ 0 →
      (normalize_ts pts dts).1 ≤ 0 ∧ (normalize_ts pts dts).2 ≤ 0) := by
  refine ⟨?_, ⟨rfl, rfl⟩, ?_, ?_⟩
  · by_cases hf : p.flag &&& MPP_PACKET_FLAG_INTRA ≠ 0 <;>
      simp [rkmpp_receive_packet, rp_fail, hpoll, hdq, htask, henq, hpkt,
        heos, halloc, hbuf, hf]
  · unfold normalize_ts
    split_ifs <;> simp_all <;> omega
  · intro h1 h2
    unfold normalize_ts
    split_ifs <;> simp_all

/-- C6 witness: a packet with pts 0 and dts 7 is surfaced with both
timestamps 7; normalization is idempotent at (0, 7) and preserves
non-positivity at (-3, 0). -/
theorem C6_timestamp_normalization_witness :
    (rkmpp_receive_packet { eos_reached := false } avpacket_blank none
        recv_env_pkt07).pkt.pts = 7 ∧
    normalize_ts (-3) 0 = (0, 0) := by
  have h := C6_timestamp_normalization { eos_reached := false }
    avpacket_blank none recv_env_pkt07 pkt07_ex
    (-3) 0 rfl rfl rfl rfl rfl rfl rfl rfl
  exact ⟨h.1.1.trans (by decide), by decide⟩

/-- C7: a non-null frame that is not DRM-prime, or whose software pixel
format has no MPP mapping, is rejected with `AVERROR(EINVAL)` before
any frame descriptor is allocated (empty event trace), with the session
state -- including `eos_reached` -- unchanged and no engine frame
handed back. -/
theorem C7_invalid_input_rejection (st : EncState) (f : AVFrame)
    (env : MppEnv)
    (h : f.format ≠ .drm_prime ∨ rkmpp_get_mppformat f.sw_format = none) :
    (rkmpp_send_frame st (some f) env).ret = AVERROR_EINVAL ∧
    (rkmpp_send_frame st (some f) env).st = st ∧
    (rkmpp_send_frame st (some f) env).mpp_frame = none ∧
    (rkmpp_queue_frame st.eos_reached (some f) env).events = [] := by
  by_cases hfmt : f.format = AVPixelFormat.drm_prime
  · rcases h with h | h
    · exact absurd hfmt h
    · refine ⟨?_, rfl, ?_, ?_⟩ <;>
        simp [rkmpp_send_frame, rkmpp_queue_frame, hfmt, h]
  · refine ⟨?_, rfl, ?_, ?_⟩ <;>
      simp [rkmpp_send_frame, rkmpp_queue_frame, hfmt]

/-- C7 witness: a software-format (non-DRM-prime) frame and a
DRM-prime frame with an unmapped software format are both rejected. -/
theorem C7_invalid_input_rejection_witness :
    (rkmpp_send_frame { eos_reached := false }
        (some { drm_frame_ex with format := .nv12 }) mpp_env_ok).ret =
      AVERROR_EINVAL ∧
    (rkmpp_send_frame { eos_reached := false }
        (some { drm_frame_ex with sw_format := .other 7 })
        mpp_env_ok).st = { eos_reached := false } := by
  have h1 := C7_invalid_input_rejection { eos_reached := false }
    { drm_frame_ex with format := .nv12 } mpp_env_ok (Or.inl (by decide))
  have h2 := C7_invalid_input_rejection { eos_reached := false }
    { drm_frame_ex with sw_format := .other 7 } mpp_env_ok
    (Or.inr (by decide))
  exact ⟨h1.1, h2.2.1⟩

/-- C9: the frame descriptor built for an accepted frame has horizontal
stride twice the first plane's pitch for the packed 4:2:2 engine
formats (YUYV/UYVY) and the plain pitch otherwise, and vertical stride
the second plane's offset divided (truncating) by the first plane's
pitch when the layout has more than one plane, else the frame
height. -/
theorem C9_stride_computation (eos : Bool) (f : AVFrame) (env : MppEnv)
    (mfmt : MppFrameFormat)
    (hfmt : f.format = .drm_prime)
    (hmap : rkmpp_get_mppformat f.sw_format = some mfmt)
    (hinit : env.frame_init_ret = 0) (himp : env.buffer_import_ret = 0)
    (hpoll : env.poll_in_ret = 0) (hdq : env.dequeue_in_ret = 0)
    (htask : env.dequeue_in_task = true)
    (henq : env.enqueue_in_ret = 0) :
    ∃ fd : MppFrameDesc,
      (rkmpp_queue_frame eos (some f) env).out_frame = some fd ∧
      fd.hor_stride =
        (if mfmt = .yuv422_yuyv ∨ mfmt = .yuv422_uyvy then
          2 * f.desc.layer0.plane0.pitch
        else
          f.desc.layer0.plane0.pitch) ∧
      fd.ver_stride =
        (if f.desc.layer0.nb_planes > 1 then
          Int.tdiv f.desc.layer0.plane1.offset f.desc.layer0.plane0.pitch
        else
          f.height) := by
  have hq : (rkmpp_queue_frame eos (some f) env).out_frame = some
      { mpp_frame_blank with
          eos := eos, pts := f.pts, dts := f.pkt_dts,
          width := f.width, height := f.height,
          hor_stride :=
            if mfmt = .yuv422_yuyv ∨ mfmt = .yuv422_uyvy then
              2 * f.desc.layer0.plane0.pitch
            else f.desc.layer0.plane0.pitch,
          ver_stride :=
            if f.desc.layer0.nb_planes > 1 then
              Int.tdiv f.desc.layer0.plane1.offset f.desc.layer0.plane0.pitch
            else f.height,
          fmt := some mfmt, has_buffer := true } := by
    simp [rkmpp_queue_frame, rkmpp_queue_frame_tail, qf_out, hfmt, hmap,
      hinit, himp, hpoll, hdq, htask, henq]
  exact ⟨_, hq, rfl, rfl⟩

/-- C9 witness: the two-plane NV12 sample frame gets horizontal stride
1920 (the plane pitch) and vertical stride 2211840 / 1920 = 1152. -/
theorem C9_stride_computation_witness :
    ∃ fd : MppFrameDesc,
      (rkmpp_queue_frame false (some drm_frame_ex)
          mpp_env_ok).out_frame = some fd ∧
      fd.hor_stride = 1920 ∧ fd.ver_stride = 1152 := by
  obtain ⟨fd, hout, hh, hv⟩ := C9_stride_computation false drm_frame_ex
    mpp_env_ok .yuv420sp rfl rfl rfl rfl rfl rfl rfl rfl
  exact ⟨fd, hout, hh.trans (by decide), hv.trans (by decide)⟩

/-- C10: when the dequeued output task carries no packet payload,
`rkmpp_receive_packet` returns success with the caller's packet
entirely unwritten, and `rkmpp_encode_frame` then reports
`got_packet = 1` for that call even though no packet was populated. -/
theorem C10_empty_task_reports_packet (st : EncState)
    (pkt0 pkt : AVPacket) (mf : Option MppFrameDesc)
    (frame : Option AVFrame) (qenv : MppEnv) (renv : RecvEnv)
    (hsend : (rkmpp_send_frame st frame qenv).ret = 0)
    (hpoll : renv.poll_out_ret = 0) (hdq : renv.dequeue_out_ret = 0)
    (htask : renv.dequeue_out_task = true)
    (hpkt : renv.task_packet = none)
    (henq : renv.enqueue_out_ret = 0) :
    ((rkmpp_receive_packet st pkt0 mf renv).ret = 0 ∧
      (rkmpp_receive_packet st pkt0 mf renv).pkt = pkt0) ∧
    ((rkmpp_encode_frame st pkt frame qenv renv).ret = 0 ∧
      (rkmpp_encode_frame st pkt frame qenv renv).got_packet = some 1 ∧
      (rkmpp_encode_frame st pkt frame qenv renv).pkt = pkt) := by
  have hr : ∀ (s : EncState) (q : AVPacket) (m : Option MppFrameDesc),
      rkmpp_receive_packet s q m renv = rp_fail 0 false m q
        [.taskReenqueued] := by
    intro s q m
    simp [rkmpp_receive_packet, hpoll, hdq, htask, henq, hpkt]
  refine ⟨⟨?_, ?_⟩, ?_⟩
  · rw [hr]
    rfl
  · rw [hr]
    rfl
  · simp only [rkmpp_encode_frame, hsend]
    rw [hr]
    simp [rp_fail, AVERROR_EAGAIN, AVERROR_EOF]

/-- C10 witness: draining with an empty output task reports a produced
packet while leaving the packet blank. -/
theorem C10_empty_task_reports_packet_witness :
    (rkmpp_encode_frame { eos_reached := false } avpacket_blank none
        mpp_env_ok recv_env_empty_task).got_packet = some 1 ∧
    (rkmpp_encode_frame { eos_reached := false } avpacket_blank none
        mpp_env_ok recv_env_empty_task).pkt = avpacket_blank := by
  have h := C10_empty_task_reports_packet { eos_reached := false }
    avpacket_blank avpacket_blank none none mpp_env_ok
    recv_env_empty_task rfl rfl rfl rfl rfl rfl
  exact ⟨h.2.2.1, h.2.2.2⟩

end Rkmpp
